import Mathlib

/-!
Shallow embedding of `src/task_manager.py` (classes `Database` and
`TaskRepository` over aiosqlite/SQLite).

Modelling conventions:

* The SQLite file is a pair of tables, modelled as lists of rows in
  insertion (rowid) order, together with the AUTOINCREMENT counters.
  A failed INSERT does not consume an id (SQLite only advances the
  sequence on a successful insert).
* The aiosqlite connection is a three-state handle:
  `noConn` — `connect()` was never called, so the Python object has no
  `connection` attribute; `openConn` — connected; `closedConn` — closed.
* A Python exception that propagates out of a method is `Except.error`;
  an exception caught inside a method (and printed) is an ordinary
  return value.  Exception kinds that actually arise:
  - `integrityError`: `aiosqlite.IntegrityError` (UNIQUE violation);
  - `noActiveConnection`: the `ValueError("no active connection")`
    aiosqlite raises when a statement is executed after `close()` —
    this is the "connection is gone" failure, which the spec calls
    ConnectionError; it is not an `aiosqlite.Error`, so no
    `except aiosqlite.Error` clause in the source catches it;
  - `attributeError`: the Python `AttributeError` raised when a method touches
    `self.connection` before `connect()` ever ran.
* Every executed statement is appended to a ghost `log` of
  (SQL text, bound parameters) pairs, mirroring the
  `connection.execute(query, params)` calls of the source.
* SQLite ships with `PRAGMA foreign_keys = OFF` and the source never
  turns it on, so the FOREIGN KEY declared on `tasks.user_id` is not
  enforced: an INSERT with a dangling `user_id` succeeds.  The
  embedding reproduces this.
-/

inductive SqlValue where
  | str (v : String)
  | int (v : Int)
  | null
deriving DecidableEq, Repr

/-- One `connection.execute(sql, params)` call, as issued by the source. -/
structure Query where
  sql : String
  params : List SqlValue
deriving DecidableEq, Repr

/-- A row of the `users` table. -/
structure UserRow where
  id : Nat
  username : String
  email : String
deriving DecidableEq, Repr

/-- A row of the `tasks` table. -/
structure TaskRow where
  id : Nat
  title : String
  description : Option String
  status : String
  user_id : Nat
deriving DecidableEq, Repr

/-- State of the aiosqlite connection held by the `Database` object. -/
inductive ConnState where
  | noConn
  | openConn
  | closedConn
deriving DecidableEq, Repr

/-- Python exceptions that can propagate out of a `Database` method. -/
inductive DBErr where
  | integrityError
  | noActiveConnection
  | attributeError
deriving DecidableEq, Repr

/-- The `Database` object together with the backing SQLite file. -/
structure Database where
  conn : ConnState
  users : List UserRow
  tasks : List TaskRow
  nextUserId : Nat
  nextTaskId : Nat
  log : List Query
deriving DecidableEq, Repr

/-- A fresh `Database()` object over a backing file with no rows. -/
def emptyDB : Database :=
  { conn := .noConn, users := [], tasks := [], nextUserId := 1, nextTaskId := 1, log := [] }

/- The SQL texts of the source, one fixed constant per statement. -/

def createUsersTableSQL : String :=
  "CREATE TABLE IF NOT EXISTS users (id INTEGER PRIMARY KEY AUTOINCREMENT, username TEXT UNIQUE NOT NULL, email TEXT UNIQUE NOT NULL);"

def createTasksTableSQL : String :=
  "CREATE TABLE IF NOT EXISTS tasks (id INTEGER PRIMARY KEY AUTOINCREMENT, title TEXT NOT NULL, description TEXT, status TEXT DEFAULT \x27pending\x27, user_id INTEGER NOT NULL, FOREIGN KEY (user_id) REFERENCES users (id));"

def createUserSQL : String :=
  "INSERT INTO users (username, email) VALUES (?, ?)"

def createTaskSQL : String :=
  "INSERT INTO tasks (title, description, user_id) VALUES (?, ?, ?)"

def getUserTasksSQL : String :=
  "SELECT tasks.id, tasks.title, tasks.description, tasks.status, users.username FROM tasks JOIN users ON tasks.user_id = users.id WHERE users.id = ?"

def getUserByIdSQL : String :=
  "SELECT * FROM users WHERE id = ?"

/-- `Database.connect`: opens the connection and runs `create_tables`
(`CREATE TABLE IF NOT EXISTS` twice — idempotent, preserves existing rows). -/
def connect (db : Database) : Database :=
  { db with
      conn := .openConn,
      log := db.log ++ [⟨createUsersTableSQL, []⟩, ⟨createTasksTableSQL, []⟩] }

def usernameTaken (db : Database) (username : String) : Bool :=
  db.users.any (fun u => u.username == username)

def emailTaken (db : Database) (email : String) : Bool :=
  db.users.any (fun u => u.email == email)

/-- Outcome printed by `Database.create_user`: the success message, or the
"already exists" report after catching `aiosqlite.IntegrityError`. -/
inductive CreateUserResult where
  | created
  | duplicateReported
deriving DecidableEq, Repr

/-- `Database.create_user`: parameterized INSERT into `users`; a UNIQUE
violation on username or email raises `IntegrityError`, which the method
catches and reports by printing — it does not re-raise, and the failed
insert leaves the table and the id sequence unchanged. -/
def create_user (db : Database) (username email : String) :
    Except DBErr (CreateUserResult × Database) :=
  match db.conn with
  | .noConn => .error .attributeError
  | .closedConn => .error .noActiveConnection
  | .openConn =>
    let db1 := { db with log := db.log ++ [⟨createUserSQL, [.str username, .str email]⟩] }
    if usernameTaken db username || emailTaken db email then
      .ok (.duplicateReported, db1)
    else
      .ok (.created,
        { db1 with
            users := db.users ++ [⟨db.nextUserId, username, email⟩],
            nextUserId := db.nextUserId + 1 })

def sqlOfOpt : Option String → SqlValue
  | none => .null
  | some s => .str s

/-- `Database.create_task`: parameterized INSERT into `tasks`, status
defaulted to "pending".  No try/except around it.  The declared FOREIGN
KEY is not enforced (SQLite defaults to `foreign_keys = OFF` and the
source never issues the pragma), so the insert succeeds for any
`user_id`, existing or not. -/
def create_task (db : Database) (title : String) (user_id : Nat)
    (description : Option String) : Except DBErr Database :=
  match db.conn with
  | .noConn => .error .attributeError
  | .closedConn => .error .noActiveConnection
  | .openConn =>
    .ok { db with
      tasks := db.tasks ++ [⟨db.nextTaskId, title, description, "pending", user_id⟩],
      nextTaskId := db.nextTaskId + 1,
      log := db.log ++ [⟨createTaskSQL, [.str title, sqlOfOpt description, .int user_id]⟩] }

/-- One row of the result set of `get_user_tasks` (the dict built from the
SELECTed columns). -/
structure TaskWithUser where
  id : Nat
  title : String
  description : Option String
  status : String
  username : String
deriving DecidableEq, Repr

/-- `Database.get_user_tasks`: inner join of `tasks` with `users` on
`tasks.user_id = users.id`, filtered by `users.id = ?`; nested-loop
semantics, outer scan over `tasks` in rowid order. -/
def get_user_tasks (db : Database) (user_id : Nat) :
    Except DBErr (List TaskWithUser × Database) :=
  match db.conn with
  | .noConn => .error .attributeError
  | .closedConn => .error .noActiveConnection
  | .openConn =>
    .ok (db.tasks.flatMap (fun t =>
          (db.users.filter (fun u => u.id == t.user_id && u.id == user_id)).map
            (fun u => ⟨t.id, t.title, t.description, t.status, u.username⟩)),
        { db with log := db.log ++ [⟨getUserTasksSQL, [.int user_id]⟩] })

/-- `fetchone` over `SELECT * FROM users WHERE id = ?`: the first matching
row, if any. -/
def findUserById (db : Database) (user_id : Nat) : Option UserRow :=
  db.users.find? (fun u => u.id == user_id)

/-- `Database.get_user_by_id`: returns the matching row as a dict, or
`None` when no row matches.  The `except aiosqlite.Error` clause only
catches aiosqlite errors; the `ValueError` raised on a closed connection
is not one and propagates. -/
def get_user_by_id (db : Database) (user_id : Nat) :
    Except DBErr (Option UserRow × Database) :=
  match db.conn with
  | .noConn => .error .attributeError
  | .closedConn => .error .noActiveConnection
  | .openConn =>
    .ok (findUserById db user_id,
        { db with log := db.log ++ [⟨getUserByIdSQL, [.int user_id]⟩] })

/-- `Database.close`: a no-op unless `connect` ever ran (the source guards
with a hasattr check on the connection attribute); the aiosqlite `close()`
returns early when the connection is already closed, so a second close is
a no-op too. -/
def close (db : Database) : Except DBErr Database :=
  match db.conn with
  | .noConn => .ok db
  | .openConn => .ok { db with conn := .closedConn }
  | .closedConn => .ok db

/-- Outcome printed by `TaskRepository.create_user_and_tasks`:
"Successfully created ..." or "Failed to create user and tasks: e". -/
inductive RepoOutcome where
  | success
  | failureReported (e : DBErr)
deriving DecidableEq, Repr

/-- The `for task_title in tasks:` loop body of
`create_user_and_tasks`, with the hardcoded `user_id = 1` of the source;
stops at the first call that raises, leaving earlier inserts in place. -/
def createTasksFrom (db : Database) : List String → Option DBErr × Database
  | [] => (none, db)
  | t :: rest =>
    match create_task db t 1 none with
    | .error e => (some e, db)
    | .ok db1 => createTasksFrom db1 rest

/-- `TaskRepository.create_user_and_tasks`: calls `create_user` (whose
duplicate-key report is invisible here, since the `IntegrityError` was
caught inside `create_user`), then `create_task(title, 1)` per title.
The surrounding `except Exception` catches any exception that does
propagate and reports it. -/
def create_user_and_tasks (db : Database) (username email : String)
    (taskTitles : List String) : RepoOutcome × Database :=
  match create_user db username email with
  | .error e => (.failureReported e, db)
  | .ok (_, db1) =>
    match createTasksFrom db1 taskTitles with
    | (some e, db2) => (.failureReported e, db2)
    | (none, db2) => (.success, db2)

/-! ## Shared helper lemmas -/

/-- A sample open database used to instantiate hypothesis-bearing theorems. -/
def dbBob : Database :=
  { conn := .openConn,
    users := [⟨1, "bob", "b@x.com"⟩],
    tasks := [⟨1, "write spec", none, "pending", 1⟩],
    nextUserId := 2, nextTaskId := 2, log := [] }

theorem createTasksFrom_open (ts : List String) :
    ∀ (us : List UserRow) (ts0 : List TaskRow) (nu nt : Nat) (lg : List Query),
    (createTasksFrom ⟨.openConn, us, ts0, nu, nt, lg⟩ ts).1 = none ∧
    (createTasksFrom ⟨.openConn, us, ts0, nu, nt, lg⟩ ts).2.conn = .openConn ∧
    (createTasksFrom ⟨.openConn, us, ts0, nu, nt, lg⟩ ts).2.users = us ∧
    (createTasksFrom ⟨.openConn, us, ts0, nu, nt, lg⟩ ts).2.tasks.length = ts0.length + ts.length ∧
    ∀ x ∈ (createTasksFrom ⟨.openConn, us, ts0, nu, nt, lg⟩ ts).2.tasks, x ∈ ts0 ∨ x.user_id = 1 := by
  induction ts with
  | nil =>
    intro us ts0 nu nt lg
    exact ⟨rfl, rfl, rfl, rfl, fun x hx => Or.inl hx⟩
  | cons t rest ih =>
    intro us ts0 nu nt lg
    simp only [createTasksFrom, create_task]
    obtain ⟨h1, h2, h3, h4, h5⟩ :=
      ih us (ts0 ++ [⟨nt, t, none, "pending", 1⟩]) nu (nt + 1)
        (lg ++ [⟨createTaskSQL, [.str t, sqlOfOpt none, .int ((1 : Nat))]⟩])
    refine ⟨h1, h2, h3, ?_, ?_⟩
    · rw [h4]
      simp [List.length_append]
      omega
    · intro x hx
      rcases h5 x hx with hmem | hid
      · rcases List.mem_append.mp hmem with ha | hb
        · exact Or.inl ha
        · simp only [List.mem_singleton] at hb
          exact Or.inr (by rw [hb])
      · exact Or.inr hid

/-! ## Claims -/

/-- Claim C1: `create_user_and_tasks(username, email, taskTitles)` on an
empty store with a list of N task titles reports success and results in
exactly one user row — carrying the given username and email — and exactly
N task rows, and every created task row has `user_id` equal to the
generated id of the newly created user. -/
theorem C1_create_user_and_tasks_on_empty_store (username email : String)
    (titles : List String) :
    (create_user_and_tasks (connect emptyDB) username email titles).1 = .success ∧
    ∃ u : UserRow,
      (create_user_and_tasks (connect emptyDB) username email titles).2.users = [u] ∧
      u.username = username ∧ u.email = email ∧
      (create_user_and_tasks (connect emptyDB) username email titles).2.tasks.length
        = titles.length ∧
      ∀ t ∈ (create_user_and_tasks (connect emptyDB) username email titles).2.tasks,
        t.user_id = u.id := by
  obtain ⟨h1, h2, h3, h4, h5⟩ := createTasksFrom_open titles [⟨1, username, email⟩] [] 2 1
    [⟨createUsersTableSQL, []⟩, ⟨createTasksTableSQL, []⟩,
     ⟨createUserSQL, [.str username, .str email]⟩]
  have hpair : createTasksFrom ⟨.openConn, [⟨1, username, email⟩], [], 2, 1,
      [⟨createUsersTableSQL, []⟩, ⟨createTasksTableSQL, []⟩,
       ⟨createUserSQL, [.str username, .str email]⟩]⟩ titles =
      (none, (createTasksFrom ⟨.openConn, [⟨1, username, email⟩], [], 2, 1,
        [⟨createUsersTableSQL, []⟩, ⟨createTasksTableSQL, []⟩,
         ⟨createUserSQL, [.str username, .str email]⟩]⟩ titles).2) := by
    rw [← h1]
  have hrun : create_user_and_tasks (connect emptyDB) username email titles =
      (.success, (createTasksFrom ⟨.openConn, [⟨1, username, email⟩], [], 2, 1,
        [⟨createUsersTableSQL, []⟩, ⟨createTasksTableSQL, []⟩,
         ⟨createUserSQL, [.str username, .str email]⟩]⟩ titles).2) := by
    show (match createTasksFrom ⟨.openConn, [⟨1, username, email⟩], [], 2, 1,
        [⟨createUsersTableSQL, []⟩, ⟨createTasksTableSQL, []⟩,
         ⟨createUserSQL, [.str username, .str email]⟩]⟩ titles with
      | (some e, db2) => (RepoOutcome.failureReported e, db2)
      | (none, db2) => (RepoOutcome.success, db2)) =
      (.success, (createTasksFrom ⟨.openConn, [⟨1, username, email⟩], [], 2, 1,
        [⟨createUsersTableSQL, []⟩, ⟨createTasksTableSQL, []⟩,
         ⟨createUserSQL, [.str username, .str email]⟩]⟩ titles).2)
    rw [hpair]
  rw [hrun]
  refine ⟨rfl, ⟨1, username, email⟩, h3, rfl, rfl, ?_, ?_⟩
  · rw [h4]
    simp
  · intro t ht
    rcases h5 t ht with hmem | hid
    · cases hmem
    · exact hid

/-- Claim C2, code_bug evidence: on a store with no user rows at all,
`create_task` with `user_id = 42` succeeds and inserts the row instead of
failing with ForeignKeyError and leaving the tasks table unchanged — the
FOREIGN KEY declared in the schema is never enforced because SQLite
defaults to foreign_keys = OFF and the source never issues the pragma. -/
theorem C2_create_task_dangling_user_id_succeeds :
    (connect emptyDB).users = [] ∧
    ∃ db1, create_task (connect emptyDB) "orphan task" 42 none = .ok db1 ∧
      db1.tasks = [⟨1, "orphan task", none, "pending", 42⟩] :=
  ⟨rfl, _, rfl, rfl⟩

/-- Claim C3: on an open connection, when the given username or email is
already present in the users table, `create_user` reports the
duplicate-key failure as a returned outcome (the IntegrityError is caught,
never raised onward) and the users table is left exactly unchanged. -/
theorem C3_create_user_duplicate_reported_users_unchanged (db : Database)
    (username email : String) (hconn : db.conn = .openConn)
    (hdup : usernameTaken db username = true ∨ emailTaken db email = true) :
    ∃ db1, create_user db username email = .ok (.duplicateReported, db1) ∧
      db1.users = db.users := by
  unfold create_user
  split
  · next h => rw [hconn] at h; cases h
  · next h => rw [hconn] at h; cases h
  · have hcond : (usernameTaken db username || emailTaken db email) = true := by
      rcases hdup with h | h <;> simp [h]
    rw [hcond]
    exact ⟨_, rfl, rfl⟩

/-- Witness for C3: in a concrete store already holding user bob, creating
bob again is reported as a duplicate and the users table is unchanged. -/
theorem C3_witness :
    ∃ db1, create_user dbBob "bob" "new@x.com" = .ok (.duplicateReported, db1) ∧
      db1.users = dbBob.users :=
  C3_create_user_duplicate_reported_users_unchanged dbBob "bob" "new@x.com" rfl
    (Or.inl (by decide))

set_option maxRecDepth 8192 in
/-- Claim C4, code_bug evidence: with user alice already present,
`create_user_and_tasks` hits a duplicate-key failure on its very first
step (`create_user` reports a duplicate), yet the workflow reports overall
success and still performs the `create_task` call afterwards, inserting a
task row and issuing the task INSERT statement — the first failure is
neither surfaced to the caller nor does it halt further steps, because
`create_user` swallows the IntegrityError. -/
theorem C4_duplicate_not_surfaced_and_tasks_still_created :
    ∃ db1, create_user (connect emptyDB) "alice" "a@x.com" = .ok (.created, db1) ∧
      (∃ db2, create_user db1 "alice" "b@y.com" = .ok (.duplicateReported, db2)) ∧
      (create_user_and_tasks db1 "alice" "b@y.com" ["t1"]).1 = .success ∧
      (create_user_and_tasks db1 "alice" "b@y.com" ["t1"]).2.tasks.length =
        db1.tasks.length + 1 ∧
      (create_user_and_tasks db1 "alice" "b@y.com" ["t1"]).2.log =
        db1.log ++ [⟨createUserSQL, [.str "alice", .str "b@y.com"]⟩,
                    ⟨createTaskSQL, [.str "t1", .null, .int 1]⟩] := by
  refine ⟨_, rfl, ⟨_, rfl⟩, by decide, by decide, by decide⟩

/-- Claim C5: on an open connection `get_user_by_id` always returns a
value, never an error: the matching user record when a row with that id
exists, and the None sentinel when no row matches.  An error-like result
(an exception) arises only from a lower-level store failure such as a
lost connection, never from absence. -/
theorem C5_get_user_by_id_record_or_none_sentinel (db : Database) (uid : Nat)
    (hconn : db.conn = .openConn) :
    (∃ r db1, get_user_by_id db uid = .ok (r, db1)) ∧
    (∀ u, u ∈ db.users → u.id = uid →
      ∃ v db1, get_user_by_id db uid = .ok (some v, db1) ∧ v ∈ db.users ∧ v.id = uid) ∧
    ((∀ u ∈ db.users, u.id ≠ uid) → ∃ db1, get_user_by_id db uid = .ok (none, db1)) := by
  have hopen : get_user_by_id db uid =
      .ok (findUserById db uid,
        { db with log := db.log ++ [⟨getUserByIdSQL, [.int uid]⟩] }) := by
    unfold get_user_by_id
    split
    · next h => rw [hconn] at h; cases h
    · next h => rw [hconn] at h; cases h
    · rfl
  refine ⟨⟨_, _, hopen⟩, ?_, ?_⟩
  · intro u hu hid
    have hsome : (findUserById db uid).isSome := by
      unfold findUserById
      rw [List.find?_isSome]
      exact ⟨u, hu, by simp [hid]⟩
    obtain ⟨v, hv⟩ := Option.isSome_iff_exists.mp hsome
    refine ⟨v, { db with log := db.log ++ [⟨getUserByIdSQL, [.int uid]⟩] }, ?_,
      List.mem_of_find?_eq_some hv, ?_⟩
    · rw [hopen, hv]
    · have := List.find?_some hv
      simpa using this
  · intro hno
    have hnone : findUserById db uid = none := by
      unfold findUserById
      rw [List.find?_eq_none]
      intro x hx
      simp only [beq_iff_eq]
      exact hno x hx
    rw [hopen, hnone]
    exact ⟨_, rfl⟩

/-- Witness for C5 at a concrete store: looking up the one existing id
returns that record (and the theorem also covers the None sentinel). -/
theorem C5_witness :
    ∃ v db1, get_user_by_id dbBob 1 = .ok (some v, db1) ∧ v ∈ dbBob.users ∧ v.id = 1 :=
  (C5_get_user_by_id_record_or_none_sentinel dbBob 1 rfl).2.1
    ⟨1, "bob", "b@x.com"⟩ (by decide) rfl

/-- Counterexample to claim C6: after `create_task("orphan", 5)` on an
empty store — a state the code itself reaches, since the declared foreign
key is not enforced — a task row with `user_id = 5` exists, yet
`get_user_tasks(5)` returns the empty sequence rather than that task: the
inner join drops tasks whose `user_id` matches no user row, so the result
is not exactly the set of tasks whose `user_id` equals the argument. -/
theorem C6_counterexample :
    ∃ db1, create_task (connect emptyDB) "orphan" 5 none = .ok db1 ∧
      (db1.tasks.filter (fun t => t.user_id == 5)).length = 1 ∧
      ∃ db2, get_user_tasks db1 5 = .ok ([], db2) := by
  refine ⟨_, rfl, by decide, _, rfl⟩

/-- Nested-loop join against a users table whose only row with the wanted
id is `u` equals a filter of the tasks table followed by attaching the
username of `u`. -/
theorem join_filter_eq (uid : Nat) (u : UserRow) (users : List UserRow)
    (huser : users.filter (fun v => v.id == uid) = [u]) :
    ∀ ts : List TaskRow,
      ts.flatMap (fun t =>
        (users.filter (fun v => v.id == t.user_id && v.id == uid)).map
          (fun v => (⟨t.id, t.title, t.description, t.status, v.username⟩ : TaskWithUser)))
      = (ts.filter (fun t => t.user_id == uid)).map
          (fun t => ⟨t.id, t.title, t.description, t.status, u.username⟩) := by
  intro ts
  induction ts with
  | nil => rfl
  | cons t rest ih =>
    rw [List.flatMap_cons, List.filter_cons]
    rcases hb : (t.user_id == uid) with _ | _
    · have hne : t.user_id ≠ uid := by simpa using hb
      have hinner : users.filter (fun v => v.id == t.user_id && v.id == uid) = [] :=
        List.filter_eq_nil_iff.mpr (fun v _ => by
          simp only [Bool.and_eq_true, beq_iff_eq]
          rintro ⟨h1, h2⟩
          exact hne (h1.symm.trans h2))
      simp [hinner, hb, ih]
    · have heq : t.user_id = uid := by simpa using hb
      have hinner : users.filter (fun v => v.id == t.user_id && v.id == uid) = [u] := by
        rw [← huser]
        apply List.filter_congr
        intro v _
        rw [heq]
        simp
      simp [hinner, hb, ih]

/-- Claim C6 (amended): for every userId whose user row exists (uniquely,
as generated ids are unique), `get_user_tasks` returns, in the stable
order of the tasks table, exactly the tasks whose `user_id` equals the
argument, each record carrying the owner username; in particular a user
with zero tasks yields the empty sequence.  For a userId with no user row
the result is empty even when dangling tasks carry that id — see the
counterexample. -/
theorem C6_get_user_tasks_exactly_owned (db : Database) (uid : Nat) (u : UserRow)
    (hconn : db.conn = .openConn)
    (huser : db.users.filter (fun v => v.id == uid) = [u]) :
    ∃ db1, get_user_tasks db uid =
      .ok ((db.tasks.filter (fun t => t.user_id == uid)).map
            (fun t => ⟨t.id, t.title, t.description, t.status, u.username⟩), db1) := by
  have hopen : get_user_tasks db uid =
      .ok (db.tasks.flatMap (fun t =>
            (db.users.filter (fun v => v.id == t.user_id && v.id == uid)).map
              (fun v => ⟨t.id, t.title, t.description, t.status, v.username⟩)),
          { db with log := db.log ++ [⟨getUserTasksSQL, [.int uid]⟩] }) := by
    unfold get_user_tasks
    split
    · next h => rw [hconn] at h; cases h
    · next h => rw [hconn] at h; cases h
    · rfl
  rw [hopen, join_filter_eq uid u db.users huser db.tasks]
  exact ⟨_, rfl⟩

/-- Witness for C6 (amended) at a concrete store: the one task of user bob
comes back joined with the username bob. -/
theorem C6_witness :
    ∃ db1, get_user_tasks dbBob 1 =
      .ok ((dbBob.tasks.filter (fun t => t.user_id == 1)).map
            (fun t => ⟨t.id, t.title, t.description, t.status, "bob"⟩), db1) :=
  C6_get_user_tasks_exactly_owned dbBob 1 ⟨1, "bob", "b@x.com"⟩ rfl (by decide)

/-- Claim C7: `close` after a prior `close` does not fail (idempotence),
`close` is a safe no-op when `connect` never completed, and every
operation attempted after `close` fails with the connection-gone error —
the ConnectionError kind of the spec, raised deterministically by the
driver — rather than crashing into undefined behavior. -/
theorem C7_close_idempotent_and_closed_ops_fail (db : Database)
    (us : List UserRow) (ts : List TaskRow) (nu nt : Nat) (lg : List Query)
    (username email title : String) (d : Option String) (uid : Nat) :
    (∃ db1, close db = .ok db1 ∧ close db1 = .ok db1) ∧
    close ⟨.noConn, us, ts, nu, nt, lg⟩ = .ok ⟨.noConn, us, ts, nu, nt, lg⟩ ∧
    create_user ⟨.closedConn, us, ts, nu, nt, lg⟩ username email
      = .error .noActiveConnection ∧
    create_task ⟨.closedConn, us, ts, nu, nt, lg⟩ title uid d
      = .error .noActiveConnection ∧
    get_user_tasks ⟨.closedConn, us, ts, nu, nt, lg⟩ uid
      = .error .noActiveConnection ∧
    get_user_by_id ⟨.closedConn, us, ts, nu, nt, lg⟩ uid
      = .error .noActiveConnection := by
  refine ⟨?_, rfl, rfl, rfl, rfl, rfl⟩
  rcases hc : db.conn with _ | _ | _
  · exact ⟨db, by simp [close, hc], by simp [close, hc]⟩
  · refine ⟨{ db with conn := .closedConn }, by simp [close, hc], by simp [close]⟩
  · exact ⟨db, by simp [close, hc], by simp [close, hc]⟩

/-- Claim C8: on an open connection, creating a fresh (username, email)
pair and then fetching the newly generated id returns a record whose
username and email match the pair passed to `create_user`. -/
theorem C8_create_user_then_get_by_id_roundtrip (db : Database)
    (username email : String) (hconn : db.conn = .openConn)
    (hu : usernameTaken db username = false) (he : emailTaken db email = false)
    (hfresh : ∀ u ∈ db.users, u.id ≠ db.nextUserId) :
    ∃ db1 db2, create_user db username email = .ok (.created, db1) ∧
      get_user_by_id db1 db.nextUserId =
        .ok (some ⟨db.nextUserId, username, email⟩, db2) := by
  obtain ⟨c, us2, ts2, nu, nt, lg⟩ := db
  have hc : c = .openConn := hconn
  subst hc
  refine ⟨⟨.openConn, us2 ++ [⟨nu, username, email⟩], ts2, nu + 1, nt,
      lg ++ [⟨createUserSQL, [.str username, .str email]⟩]⟩,
    ⟨.openConn, us2 ++ [⟨nu, username, email⟩], ts2, nu + 1, nt,
      (lg ++ [⟨createUserSQL, [.str username, .str email]⟩])
        ++ [⟨getUserByIdSQL, [.int nu]⟩]⟩, ?_, ?_⟩
  · simp only [create_user]
    rw [hu, he]
    rfl
  · have hfind : findUserById ⟨.openConn, us2 ++ [⟨nu, username, email⟩], ts2, nu + 1, nt,
        lg ++ [⟨createUserSQL, [.str username, .str email]⟩]⟩ nu
        = some ⟨nu, username, email⟩ := by
      unfold findUserById
      rw [List.find?_append]
      have h1 : us2.find? (fun u => u.id == nu) = none :=
        List.find?_eq_none.mpr (fun x hx => by
          simp only [beq_iff_eq]
          exact hfresh x hx)
      rw [h1]
      simp
    simp only [get_user_by_id, hfind]

/-- Witness for C8 at a concrete store: creating carol and fetching the
generated id 2 returns carol with matching username and email. -/
theorem C8_witness :
    ∃ db1 db2, create_user dbBob "carol" "c@x.com" = .ok (.created, db1) ∧
      get_user_by_id db1 dbBob.nextUserId =
        .ok (some ⟨dbBob.nextUserId, "carol", "c@x.com"⟩, db2) :=
  C8_create_user_then_get_by_id_roundtrip dbBob "carol" "c@x.com" rfl
    (by decide) (by decide) (by decide)

/-- Claim C9: every statement a Store operation executes is issued with a
fixed SQL text — one of the global string constants, independent of all
caller-supplied values — while the caller-supplied values travel
exclusively in the bound parameter list of the executed query. -/
theorem C9_fixed_sql_text_parameter_binding (db : Database)
    (username email title : String) (d : Option String) (uid tid gid : Nat)
    (hconn : db.conn = .openConn) :
    (∃ r db1, create_user db username email = .ok (r, db1) ∧
        db1.log = db.log ++ [⟨createUserSQL, [.str username, .str email]⟩]) ∧
    (∃ db1, create_task db title uid d = .ok db1 ∧
        db1.log = db.log ++ [⟨createTaskSQL, [.str title, sqlOfOpt d, .int uid]⟩]) ∧
    (∃ r db1, get_user_tasks db tid = .ok (r, db1) ∧
        db1.log = db.log ++ [⟨getUserTasksSQL, [.int tid]⟩]) ∧
    (∃ r db1, get_user_by_id db gid = .ok (r, db1) ∧
        db1.log = db.log ++ [⟨getUserByIdSQL, [.int gid]⟩]) := by
  obtain ⟨c, us2, ts2, nu, nt, lg⟩ := db
  have hc : c = .openConn := hconn
  subst hc
  refine ⟨?_, ?_, ?_, ?_⟩
  · rcases hb : usernameTaken ⟨.openConn, us2, ts2, nu, nt, lg⟩ username
        || emailTaken ⟨.openConn, us2, ts2, nu, nt, lg⟩ email with _ | _
    · refine ⟨.created, ⟨.openConn, us2 ++ [⟨nu, username, email⟩], ts2, nu + 1, nt,
          lg ++ [⟨createUserSQL, [.str username, .str email]⟩]⟩, ?_, by rfl⟩
      simp only [create_user]
      rw [hb]
      rfl
    · refine ⟨.duplicateReported, ⟨.openConn, us2, ts2, nu, nt,
          lg ++ [⟨createUserSQL, [.str username, .str email]⟩]⟩, ?_, by rfl⟩
      simp only [create_user]
      rw [hb]
      rfl
  · refine ⟨⟨.openConn, us2, ts2 ++ [⟨nt, title, d, "pending", uid⟩], nu, nt + 1,
       lg ++ [⟨createTaskSQL, [.str title, sqlOfOpt d, .int uid]⟩]⟩, ?_, ?_⟩ <;> rfl
  · refine ⟨ts2.flatMap (fun t =>
        (us2.filter (fun u => u.id == t.user_id && u.id == tid)).map
          (fun u => ⟨t.id, t.title, t.description, t.status, u.username⟩)),
      ⟨.openConn, us2, ts2, nu, nt, lg ++ [⟨getUserTasksSQL, [.int tid]⟩]⟩, ?_, ?_⟩ <;> rfl
  · refine ⟨us2.find? (fun u => u.id == gid),
      ⟨.openConn, us2, ts2, nu, nt, lg ++ [⟨getUserByIdSQL, [.int gid]⟩]⟩, ?_, ?_⟩ <;> rfl

/-- Witness for C9 at a concrete store: the task INSERT issued by
`create_task` carries the fixed SQL text and the inputs as parameters. -/
theorem C9_witness :
    ∃ db1, create_task dbBob "buy milk" 9 (some "today") = .ok db1 ∧
      db1.log = dbBob.log ++
        [⟨createTaskSQL, [.str "buy milk", sqlOfOpt (some "today"), .int 9]⟩] :=
  (C9_fixed_sql_text_parameter_binding dbBob "x" "y" "buy milk" (some "today")
    9 0 0 rfl).2.1

/-- Claim C10: `get_user_tasks` for a userId with no user row returns the
empty sequence — the same value an existing user with zero tasks gets —
with no not-found signal distinguishing the two cases. -/
theorem C10_get_user_tasks_missing_user_empty (db : Database) (uid : Nat)
    (hconn : db.conn = .openConn) :
    ((∀ u ∈ db.users, u.id ≠ uid) →
      ∃ db1, get_user_tasks db uid = .ok ([], db1)) ∧
    (∀ u, u ∈ db.users → u.id = uid → (∀ t ∈ db.tasks, t.user_id ≠ uid) →
      ∃ db1, get_user_tasks db uid = .ok ([], db1)) := by
  have hopen : get_user_tasks db uid =
      .ok (db.tasks.flatMap (fun t =>
            (db.users.filter (fun v => v.id == t.user_id && v.id == uid)).map
              (fun v => ⟨t.id, t.title, t.description, t.status, v.username⟩)),
          { db with log := db.log ++ [⟨getUserTasksSQL, [.int uid]⟩] }) := by
    unfold get_user_tasks
    split
    · next h => rw [hconn] at h; cases h
    · next h => rw [hconn] at h; cases h
    · rfl
  constructor
  · intro hno
    have hnil : db.tasks.flatMap (fun t =>
        (db.users.filter (fun v => v.id == t.user_id && v.id == uid)).map
          (fun v => (⟨t.id, t.title, t.description, t.status, v.username⟩ : TaskWithUser)))
        = [] :=
      List.flatMap_eq_nil_iff.mpr (fun t _ => by
        have hf : db.users.filter (fun v => v.id == t.user_id && v.id == uid) = [] :=
          List.filter_eq_nil_iff.mpr (fun v hv => by
            simp only [Bool.and_eq_true, beq_iff_eq]
            rintro ⟨_, h2⟩
            exact hno v hv h2)
        rw [hf]
        rfl)
    rw [hopen, hnil]
    exact ⟨_, rfl⟩
  · intro u hu hid htask
    have hnil : db.tasks.flatMap (fun t =>
        (db.users.filter (fun v => v.id == t.user_id && v.id == uid)).map
          (fun v => (⟨t.id, t.title, t.description, t.status, v.username⟩ : TaskWithUser)))
        = [] :=
      List.flatMap_eq_nil_iff.mpr (fun t ht => by
        have hf : db.users.filter (fun v => v.id == t.user_id && v.id == uid) = [] :=
          List.filter_eq_nil_iff.mpr (fun v hv => by
            simp only [Bool.and_eq_true, beq_iff_eq]
            rintro ⟨h1, h2⟩
            exact htask t ht (h1.symm.trans h2))
        rw [hf]
        rfl)
    rw [hopen, hnil]
    exact ⟨_, rfl⟩

/-- Witness for C10 at a concrete store: id 7 has no user row (though a
task table is present), and the result is the plain empty sequence. -/
theorem C10_witness : ∃ db1, get_user_tasks dbBob 7 = .ok ([], db1) :=
  (C10_get_user_tasks_missing_user_empty dbBob 7 rfl).1 (by decide)
